import Mathlib

/-!
# phyr: the exported call interface (`src/RcppExports.cpp`)

`RcppExports.cpp` holds, for each routine the package exports to R, a forward
declaration of the C++ implementation and a wrapper `_phyr_<name>` taking one
`SEXP` per argument, and it ends with the registration table `CallEntries`
handed to `R_registerRoutines` by `R_init_phyr`.

The declarations, the wrapper bodies and the table are embedded here as data,
statement by statement, together with an executable semantics of a wrapper
body over an explicit process state.  The bodies of the implementation
functions are not part of that file; they enter the semantics as a parameter.
-/

namespace Phyr

/-! ## C++ types occurring in the declarations -/

/-- The value types named in the file (`arma::vec`, `arma::mat`, `arma::sp_mat`,
`std::vector<arma::mat>`, `double`, `int`, `unsigned int`, `bool`,
`std::string`, `NumericVector`, `List`, `SEXP`) and `void`. -/
inductive BaseType
  | vec | mat | sp_mat | vectorMat
  | double | int | unsignedInt | bool | string
  | NumericVector | list | SEXP | void
  deriving DecidableEq, Repr

/-- A parameter type: a base type, possibly `const`, possibly a reference. -/
structure CppType where
  isConst : Bool
  base : BaseType
  isRef : Bool
  deriving DecidableEq, Repr

/-- Plain `T`. -/
def v (b : BaseType) : CppType := ⟨false, b, false⟩
/-- The type `const T`. -/
def c (b : BaseType) : CppType := ⟨true, b, false⟩
/-- The type `const T&`. -/
def cr (b : BaseType) : CppType := ⟨true, b, true⟩

/-- One parameter of a declaration: its type and its name. -/
structure Param where
  ty : CppType
  name : String
  deriving DecidableEq, Repr

/-- A forward declaration `ret name(params);`. -/
structure Decl where
  ret : BaseType
  name : String
  params : List Param
  deriving DecidableEq, Repr

/-- The statements a wrapper body is made of (between `BEGIN_RCPP` and
`END_RCPP`):
* `declResult`: `Rcpp::RObject rcpp_result_gen;`
* `rngScope`: `Rcpp::RNGScope rcpp_rngScope_gen;`
* `inputParameter T x xSEXP`: `Rcpp::traits::input_parameter< T >::type x(xSEXP);`
* `assignWrapCall f args`: `rcpp_result_gen = Rcpp::wrap(f(args));`
* `callVoid f args`: `f(args);`
* `returnResult`: `return rcpp_result_gen;`
* `returnNil`: `return R_NilValue;` -/
inductive Stmt
  | declResult
  | rngScope
  | inputParameter (ty : CppType) (var : String) (sexp : String)
  | assignWrapCall (fn : String) (args : List String)
  | callVoid (fn : String) (args : List String)
  | returnResult
  | returnNil
  deriving DecidableEq, Repr

/-- An exported wrapper `RcppExport SEXP name(SEXP p1, ..., SEXP pk) { body }`
together with the declaration that precedes it. -/
structure Wrapper where
  name : String
  sexpParams : List String
  decl : Decl
  body : List Stmt
  deriving DecidableEq, Repr

/-- One row `{name, (DL_FUNC) &fn, numArgs}` of an `R_CallMethodDef` table;
`NULL` is `none`. -/
structure R_CallMethodDef where
  name : Option String
  fn : Option Wrapper
  numArgs : Nat
  deriving DecidableEq, Repr

/-! ## The declarations and wrappers, in file order -/

/-- The forward declaration of `pglmm_reml_cpp` (defined outside this file). -/
def pglmm_reml_cpp : Decl :=
  { ret := .double, name := "pglmm_reml_cpp",
    params := [
      ⟨v .vec, "par"⟩,
      ⟨cr .mat, "tinvW"⟩,
      ⟨cr .mat, "tH"⟩,
      ⟨cr .mat, "tVphy"⟩,
      ⟨cr .mat, "tX"⟩] }

/-- The exported wrapper `_phyr_pglmm_reml_cpp`. -/
def _phyr_pglmm_reml_cpp : Wrapper :=
  { name := "_phyr_pglmm_reml_cpp",
    sexpParams := ["parSEXP", "tinvWSEXP", "tHSEXP", "tVphySEXP", "tXSEXP"],
    decl := pglmm_reml_cpp,
    body := [
      .declResult,
      .rngScope,
      .inputParameter (v .vec) "par" "parSEXP",
      .inputParameter (cr .mat) "tinvW" "tinvWSEXP",
      .inputParameter (cr .mat) "tH" "tHSEXP",
      .inputParameter (cr .mat) "tVphy" "tVphySEXP",
      .inputParameter (cr .mat) "tX" "tXSEXP",
      .assignWrapCall "pglmm_reml_cpp" ["par", "tinvW", "tH", "tVphy", "tX"],
      .returnResult] }

/-- The forward declaration of `binpglmm_inter_while_cpp` (defined outside this file). -/
def binpglmm_inter_while_cpp : Decl :=
  { ret := .list, name := "binpglmm_inter_while_cpp",
    params := [
      ⟨v .mat, "est_B_m"⟩,
      ⟨v .mat, "oldest_B_m"⟩,
      ⟨v .mat, "B"⟩,
      ⟨cr .double, "tol_pql"⟩,
      ⟨v .int, "iteration_m"⟩,
      ⟨cr .int, "maxit_pql"⟩,
      ⟨v .vec, "mu"⟩,
      ⟨cr .mat, "C"⟩,
      ⟨v .int, "rcondflag"⟩,
      ⟨cr .mat, "B_init"⟩,
      ⟨cr .mat, "X"⟩,
      ⟨cr .mat, "XX"⟩,
      ⟨cr .mat, "est_B"⟩,
      ⟨cr .vec, "y"⟩,
      ⟨v .int, "n"⟩,
      ⟨v .mat, "b"⟩] }

/-- The exported wrapper `_phyr_binpglmm_inter_while_cpp`. -/
def _phyr_binpglmm_inter_while_cpp : Wrapper :=
  { name := "_phyr_binpglmm_inter_while_cpp",
    sexpParams := ["est_B_mSEXP", "oldest_B_mSEXP", "BSEXP", "tol_pqlSEXP", "iteration_mSEXP", "maxit_pqlSEXP", "muSEXP", "CSEXP", "rcondflagSEXP", "B_initSEXP", "XSEXP", "XXSEXP", "est_BSEXP", "ySEXP", "nSEXP", "bSEXP"],
    decl := binpglmm_inter_while_cpp,
    body := [
      .declResult,
      .rngScope,
      .inputParameter (v .mat) "est_B_m" "est_B_mSEXP",
      .inputParameter (v .mat) "oldest_B_m" "oldest_B_mSEXP",
      .inputParameter (v .mat) "B" "BSEXP",
      .inputParameter (cr .double) "tol_pql" "tol_pqlSEXP",
      .inputParameter (v .int) "iteration_m" "iteration_mSEXP",
      .inputParameter (cr .int) "maxit_pql" "maxit_pqlSEXP",
      .inputParameter (v .vec) "mu" "muSEXP",
      .inputParameter (cr .mat) "C" "CSEXP",
      .inputParameter (v .int) "rcondflag" "rcondflagSEXP",
      .inputParameter (cr .mat) "B_init" "B_initSEXP",
      .inputParameter (cr .mat) "X" "XSEXP",
      .inputParameter (cr .mat) "XX" "XXSEXP",
      .inputParameter (cr .mat) "est_B" "est_BSEXP",
      .inputParameter (cr .vec) "y" "ySEXP",
      .inputParameter (v .int) "n" "nSEXP",
      .inputParameter (v .mat) "b" "bSEXP",
      .assignWrapCall "binpglmm_inter_while_cpp" ["est_B_m", "oldest_B_m", "B", "tol_pql", "iteration_m", "maxit_pql", "mu", "C", "rcondflag", "B_init", "X", "XX", "est_B", "y", "n", "b"],
      .returnResult] }

/-- The forward declaration of `binpglmm_inter_while_cpp2` (defined outside this file). -/
def binpglmm_inter_while_cpp2 : Decl :=
  { ret := .list, name := "binpglmm_inter_while_cpp2",
    params := [
      ⟨v .mat, "est_B_m"⟩,
      ⟨v .mat, "B"⟩,
      ⟨v .vec, "mu"⟩,
      ⟨cr .mat, "C"⟩,
      ⟨v .int, "rcondflag"⟩,
      ⟨cr .mat, "B_init"⟩,
      ⟨cr .mat, "X"⟩,
      ⟨cr .mat, "XX"⟩,
      ⟨cr .mat, "est_B"⟩,
      ⟨cr .vec, "y"⟩,
      ⟨v .int, "n"⟩,
      ⟨v .mat, "b"⟩] }

/-- The exported wrapper `_phyr_binpglmm_inter_while_cpp2`. -/
def _phyr_binpglmm_inter_while_cpp2 : Wrapper :=
  { name := "_phyr_binpglmm_inter_while_cpp2",
    sexpParams := ["est_B_mSEXP", "BSEXP", "muSEXP", "CSEXP", "rcondflagSEXP", "B_initSEXP", "XSEXP", "XXSEXP", "est_BSEXP", "ySEXP", "nSEXP", "bSEXP"],
    decl := binpglmm_inter_while_cpp2,
    body := [
      .declResult,
      .rngScope,
      .inputParameter (v .mat) "est_B_m" "est_B_mSEXP",
      .inputParameter (v .mat) "B" "BSEXP",
      .inputParameter (v .vec) "mu" "muSEXP",
      .inputParameter (cr .mat) "C" "CSEXP",
      .inputParameter (v .int) "rcondflag" "rcondflagSEXP",
      .inputParameter (cr .mat) "B_init" "B_initSEXP",
      .inputParameter (cr .mat) "X" "XSEXP",
      .inputParameter (cr .mat) "XX" "XXSEXP",
      .inputParameter (cr .mat) "est_B" "est_BSEXP",
      .inputParameter (cr .vec) "y" "ySEXP",
      .inputParameter (v .int) "n" "nSEXP",
      .inputParameter (v .mat) "b" "bSEXP",
      .assignWrapCall "binpglmm_inter_while_cpp2" ["est_B_m", "B", "mu", "C", "rcondflag", "B_init", "X", "XX", "est_B", "y", "n", "b"],
      .returnResult] }

/-- The forward declaration of `cor_phylo_` (defined outside this file). -/
def cor_phylo_ : Decl :=
  { ret := .list, name := "cor_phylo_",
    params := [
      ⟨cr .mat, "X"⟩,
      ⟨cr .vectorMat, "U"⟩,
      ⟨cr .mat, "SeM"⟩,
      ⟨cr .mat, "Vphy_"⟩,
      ⟨cr .bool, "REML"⟩,
      ⟨cr .bool, "constrain_d"⟩,
      ⟨cr .bool, "verbose"⟩,
      ⟨cr .int, "max_iter"⟩,
      ⟨cr .string, "method"⟩] }

/-- The exported wrapper `_phyr_cor_phylo_`. -/
def _phyr_cor_phylo_ : Wrapper :=
  { name := "_phyr_cor_phylo_",
    sexpParams := ["XSEXP", "USEXP", "SeMSEXP", "Vphy_SEXP", "REMLSEXP", "constrain_dSEXP", "verboseSEXP", "max_iterSEXP", "methodSEXP"],
    decl := cor_phylo_,
    body := [
      .declResult,
      .rngScope,
      .inputParameter (cr .mat) "X" "XSEXP",
      .inputParameter (cr .vectorMat) "U" "USEXP",
      .inputParameter (cr .mat) "SeM" "SeMSEXP",
      .inputParameter (cr .mat) "Vphy_" "Vphy_SEXP",
      .inputParameter (cr .bool) "REML" "REMLSEXP",
      .inputParameter (cr .bool) "constrain_d" "constrain_dSEXP",
      .inputParameter (cr .bool) "verbose" "verboseSEXP",
      .inputParameter (cr .int) "max_iter" "max_iterSEXP",
      .inputParameter (cr .string) "method" "methodSEXP",
      .assignWrapCall "cor_phylo_" ["X", "U", "SeM", "Vphy_", "REML", "constrain_d", "verbose", "max_iter", "method"],
      .returnResult] }

/-- The forward declaration of `set_seed` (defined outside this file). -/
def set_seed : Decl :=
  { ret := .void, name := "set_seed",
    params := [
      ⟨v .unsignedInt, "seed"⟩] }

/-- The exported wrapper `_phyr_set_seed`. -/
def _phyr_set_seed : Wrapper :=
  { name := "_phyr_set_seed",
    sexpParams := ["seedSEXP"],
    decl := set_seed,
    body := [
      .rngScope,
      .inputParameter (v .unsignedInt) "seed" "seedSEXP",
      .callVoid "set_seed" ["seed"],
      .returnNil] }

/-- The forward declaration of `predict_cpp` (defined outside this file). -/
def predict_cpp : Decl :=
  { ret := .NumericVector, name := "predict_cpp",
    params := [
      ⟨v .int, "n"⟩,
      ⟨cr .vec, "nsr"⟩,
      ⟨v .int, "reps"⟩,
      ⟨cr .mat, "V"⟩] }

/-- The exported wrapper `_phyr_predict_cpp`. -/
def _phyr_predict_cpp : Wrapper :=
  { name := "_phyr_predict_cpp",
    sexpParams := ["nSEXP", "nsrSEXP", "repsSEXP", "VSEXP"],
    decl := predict_cpp,
    body := [
      .declResult,
      .rngScope,
      .inputParameter (v .int) "n" "nSEXP",
      .inputParameter (cr .vec) "nsr" "nsrSEXP",
      .inputParameter (v .int) "reps" "repsSEXP",
      .inputParameter (cr .mat) "V" "VSEXP",
      .assignWrapCall "predict_cpp" ["n", "nsr", "reps", "V"],
      .returnResult] }

/-- The forward declaration of `pcd2_loop` (defined outside this file). -/
def pcd2_loop : Decl :=
  { ret := .list, name := "pcd2_loop",
    params := [
      ⟨v .vec, "SSii"⟩,
      ⟨v .vec, "nsr"⟩,
      ⟨v .double, "SCii"⟩,
      ⟨cr .mat, "comm"⟩,
      ⟨cr .mat, "V"⟩,
      ⟨v .int, "nsp_pool"⟩,
      ⟨v .bool, "verbose"⟩] }

/-- The exported wrapper `_phyr_pcd2_loop`. -/
def _phyr_pcd2_loop : Wrapper :=
  { name := "_phyr_pcd2_loop",
    sexpParams := ["SSiiSEXP", "nsrSEXP", "SCiiSEXP", "commSEXP", "VSEXP", "nsp_poolSEXP", "verboseSEXP"],
    decl := pcd2_loop,
    body := [
      .declResult,
      .rngScope,
      .inputParameter (v .vec) "SSii" "SSiiSEXP",
      .inputParameter (v .vec) "nsr" "nsrSEXP",
      .inputParameter (v .double) "SCii" "SCiiSEXP",
      .inputParameter (cr .mat) "comm" "commSEXP",
      .inputParameter (cr .mat) "V" "VSEXP",
      .inputParameter (v .int) "nsp_pool" "nsp_poolSEXP",
      .inputParameter (v .bool) "verbose" "verboseSEXP",
      .assignWrapCall "pcd2_loop" ["SSii", "nsr", "SCii", "comm", "V", "nsp_pool", "verbose"],
      .returnResult] }

/-- The forward declaration of `plmm_binary_iV_logdetV_cpp` (defined outside this file). -/
def plmm_binary_iV_logdetV_cpp : Decl :=
  { ret := .list, name := "plmm_binary_iV_logdetV_cpp",
    params := [
      ⟨v .NumericVector, "par"⟩,
      ⟨v .vec, "mu"⟩,
      ⟨cr .sp_mat, "Zt"⟩,
      ⟨cr .sp_mat, "St"⟩,
      ⟨cr .list, "nested"⟩,
      ⟨v .bool, "logdet"⟩] }

/-- The exported wrapper `_phyr_plmm_binary_iV_logdetV_cpp`. -/
def _phyr_plmm_binary_iV_logdetV_cpp : Wrapper :=
  { name := "_phyr_plmm_binary_iV_logdetV_cpp",
    sexpParams := ["parSEXP", "muSEXP", "ZtSEXP", "StSEXP", "nestedSEXP", "logdetSEXP"],
    decl := plmm_binary_iV_logdetV_cpp,
    body := [
      .declResult,
      .rngScope,
      .inputParameter (v .NumericVector) "par" "parSEXP",
      .inputParameter (v .vec) "mu" "muSEXP",
      .inputParameter (cr .sp_mat) "Zt" "ZtSEXP",
      .inputParameter (cr .sp_mat) "St" "StSEXP",
      .inputParameter (cr .list) "nested" "nestedSEXP",
      .inputParameter (v .bool) "logdet" "logdetSEXP",
      .assignWrapCall "plmm_binary_iV_logdetV_cpp" ["par", "mu", "Zt", "St", "nested", "logdet"],
      .returnResult] }

/-- The forward declaration of `plmm_binary_V` (defined outside this file). -/
def plmm_binary_V : Decl :=
  { ret := .sp_mat, name := "plmm_binary_V",
    params := [
      ⟨v .NumericVector, "par"⟩,
      ⟨cr .sp_mat, "Zt"⟩,
      ⟨cr .sp_mat, "St"⟩,
      ⟨v .vec, "mu"⟩,
      ⟨cr .list, "nested"⟩,
      ⟨v .bool, "missing_mu"⟩] }

/-- The exported wrapper `_phyr_plmm_binary_V`. -/
def _phyr_plmm_binary_V : Wrapper :=
  { name := "_phyr_plmm_binary_V",
    sexpParams := ["parSEXP", "ZtSEXP", "StSEXP", "muSEXP", "nestedSEXP", "missing_muSEXP"],
    decl := plmm_binary_V,
    body := [
      .declResult,
      .rngScope,
      .inputParameter (v .NumericVector) "par" "parSEXP",
      .inputParameter (cr .sp_mat) "Zt" "ZtSEXP",
      .inputParameter (cr .sp_mat) "St" "StSEXP",
      .inputParameter (v .vec) "mu" "muSEXP",
      .inputParameter (cr .list) "nested" "nestedSEXP",
      .inputParameter (v .bool) "missing_mu" "missing_muSEXP",
      .assignWrapCall "plmm_binary_V" ["par", "Zt", "St", "mu", "nested", "missing_mu"],
      .returnResult] }

/-- The forward declaration of `plmm_binary_LL_cpp` (defined outside this file). -/
def plmm_binary_LL_cpp : Decl :=
  { ret := .double, name := "plmm_binary_LL_cpp",
    params := [
      ⟨v .NumericVector, "par"⟩,
      ⟨cr .vec, "H"⟩,
      ⟨cr .mat, "X"⟩,
      ⟨cr .sp_mat, "Zt"⟩,
      ⟨cr .sp_mat, "St"⟩,
      ⟨cr .vec, "mu"⟩,
      ⟨cr .list, "nested"⟩,
      ⟨v .bool, "REML"⟩,
      ⟨v .bool, "verbose"⟩] }

/-- The exported wrapper `_phyr_plmm_binary_LL_cpp`. -/
def _phyr_plmm_binary_LL_cpp : Wrapper :=
  { name := "_phyr_plmm_binary_LL_cpp",
    sexpParams := ["parSEXP", "HSEXP", "XSEXP", "ZtSEXP", "StSEXP", "muSEXP", "nestedSEXP", "REMLSEXP", "verboseSEXP"],
    decl := plmm_binary_LL_cpp,
    body := [
      .declResult,
      .rngScope,
      .inputParameter (v .NumericVector) "par" "parSEXP",
      .inputParameter (cr .vec) "H" "HSEXP",
      .inputParameter (cr .mat) "X" "XSEXP",
      .inputParameter (cr .sp_mat) "Zt" "ZtSEXP",
      .inputParameter (cr .sp_mat) "St" "StSEXP",
      .inputParameter (cr .vec) "mu" "muSEXP",
      .inputParameter (cr .list) "nested" "nestedSEXP",
      .inputParameter (v .bool) "REML" "REMLSEXP",
      .inputParameter (v .bool) "verbose" "verboseSEXP",
      .assignWrapCall "plmm_binary_LL_cpp" ["par", "H", "X", "Zt", "St", "mu", "nested", "REML", "verbose"],
      .returnResult] }

/-- The forward declaration of `pglmm_binary_internal_cpp` (defined outside this file). -/
def pglmm_binary_internal_cpp : Decl :=
  { ret := .list, name := "pglmm_binary_internal_cpp",
    params := [
      ⟨cr .mat, "X"⟩,
      ⟨cr .vec, "Y"⟩,
      ⟨cr .sp_mat, "Zt"⟩,
      ⟨cr .sp_mat, "St"⟩,
      ⟨cr .list, "nested"⟩,
      ⟨c .bool, "REML"⟩,
      ⟨c .bool, "verbose"⟩,
      ⟨c .int, "n"⟩,
      ⟨c .int, "p"⟩,
      ⟨c .int, "q"⟩,
      ⟨c .int, "maxit"⟩,
      ⟨c .double, "reltol"⟩,
      ⟨c .double, "tol_pql"⟩,
      ⟨c .double, "maxit_pql"⟩,
      ⟨c .string, "optimizer"⟩,
      ⟨v .mat, "B_init"⟩,
      ⟨v .vec, "ss"⟩] }

/-- The exported wrapper `_phyr_pglmm_binary_internal_cpp`. -/
def _phyr_pglmm_binary_internal_cpp : Wrapper :=
  { name := "_phyr_pglmm_binary_internal_cpp",
    sexpParams := ["XSEXP", "YSEXP", "ZtSEXP", "StSEXP", "nestedSEXP", "REMLSEXP", "verboseSEXP", "nSEXP", "pSEXP", "qSEXP", "maxitSEXP", "reltolSEXP", "tol_pqlSEXP", "maxit_pqlSEXP", "optimizerSEXP", "B_initSEXP", "ssSEXP"],
    decl := pglmm_binary_internal_cpp,
    body := [
      .declResult,
      .rngScope,
      .inputParameter (cr .mat) "X" "XSEXP",
      .inputParameter (cr .vec) "Y" "YSEXP",
      .inputParameter (cr .sp_mat) "Zt" "ZtSEXP",
      .inputParameter (cr .sp_mat) "St" "StSEXP",
      .inputParameter (cr .list) "nested" "nestedSEXP",
      .inputParameter (c .bool) "REML" "REMLSEXP",
      .inputParameter (c .bool) "verbose" "verboseSEXP",
      .inputParameter (c .int) "n" "nSEXP",
      .inputParameter (c .int) "p" "pSEXP",
      .inputParameter (c .int) "q" "qSEXP",
      .inputParameter (c .int) "maxit" "maxitSEXP",
      .inputParameter (c .double) "reltol" "reltolSEXP",
      .inputParameter (c .double) "tol_pql" "tol_pqlSEXP",
      .inputParameter (c .double) "maxit_pql" "maxit_pqlSEXP",
      .inputParameter (c .string) "optimizer" "optimizerSEXP",
      .inputParameter (v .mat) "B_init" "B_initSEXP",
      .inputParameter (v .vec) "ss" "ssSEXP",
      .assignWrapCall "pglmm_binary_internal_cpp" ["X", "Y", "Zt", "St", "nested", "REML", "verbose", "n", "p", "q", "maxit", "reltol", "tol_pql", "maxit_pql", "optimizer", "B_init", "ss"],
      .returnResult] }

/-- The forward declaration of `sexp_type` (defined outside this file). -/
def sexp_type : Decl :=
  { ret := .int, name := "sexp_type",
    params := [
      ⟨v .SEXP, "x"⟩] }

/-- The exported wrapper `_phyr_sexp_type`. -/
def _phyr_sexp_type : Wrapper :=
  { name := "_phyr_sexp_type",
    sexpParams := ["xSEXP"],
    decl := sexp_type,
    body := [
      .declResult,
      .rngScope,
      .inputParameter (v .SEXP) "x" "xSEXP",
      .assignWrapCall "sexp_type" ["x"],
      .returnResult] }

/-- The forward declaration of `pglmm_gaussian_LL_cpp` (defined outside this file). -/
def pglmm_gaussian_LL_cpp : Decl :=
  { ret := .double, name := "pglmm_gaussian_LL_cpp",
    params := [
      ⟨v .NumericVector, "par"⟩,
      ⟨cr .mat, "X"⟩,
      ⟨cr .vec, "Y"⟩,
      ⟨cr .sp_mat, "Zt"⟩,
      ⟨cr .sp_mat, "St"⟩,
      ⟨cr .list, "nested"⟩,
      ⟨v .bool, "REML"⟩,
      ⟨v .bool, "verbose"⟩] }

/-- The exported wrapper `_phyr_pglmm_gaussian_LL_cpp`. -/
def _phyr_pglmm_gaussian_LL_cpp : Wrapper :=
  { name := "_phyr_pglmm_gaussian_LL_cpp",
    sexpParams := ["parSEXP", "XSEXP", "YSEXP", "ZtSEXP", "StSEXP", "nestedSEXP", "REMLSEXP", "verboseSEXP"],
    decl := pglmm_gaussian_LL_cpp,
    body := [
      .declResult,
      .rngScope,
      .inputParameter (v .NumericVector) "par" "parSEXP",
      .inputParameter (cr .mat) "X" "XSEXP",
      .inputParameter (cr .vec) "Y" "YSEXP",
      .inputParameter (cr .sp_mat) "Zt" "ZtSEXP",
      .inputParameter (cr .sp_mat) "St" "StSEXP",
      .inputParameter (cr .list) "nested" "nestedSEXP",
      .inputParameter (v .bool) "REML" "REMLSEXP",
      .inputParameter (v .bool) "verbose" "verboseSEXP",
      .assignWrapCall "pglmm_gaussian_LL_cpp" ["par", "X", "Y", "Zt", "St", "nested", "REML", "verbose"],
      .returnResult] }

/-- The forward declaration of `pglmm_gaussian_LL_calc_cpp` (defined outside this file). -/
def pglmm_gaussian_LL_calc_cpp : Decl :=
  { ret := .list, name := "pglmm_gaussian_LL_calc_cpp",
    params := [
      ⟨v .NumericVector, "par"⟩,
      ⟨cr .mat, "X"⟩,
      ⟨cr .vec, "Y"⟩,
      ⟨cr .sp_mat, "Zt"⟩,
      ⟨cr .sp_mat, "St"⟩,
      ⟨cr .list, "nested"⟩,
      ⟨v .bool, "REML"⟩] }

/-- The exported wrapper `_phyr_pglmm_gaussian_LL_calc_cpp`. -/
def _phyr_pglmm_gaussian_LL_calc_cpp : Wrapper :=
  { name := "_phyr_pglmm_gaussian_LL_calc_cpp",
    sexpParams := ["parSEXP", "XSEXP", "YSEXP", "ZtSEXP", "StSEXP", "nestedSEXP", "REMLSEXP"],
    decl := pglmm_gaussian_LL_calc_cpp,
    body := [
      .declResult,
      .rngScope,
      .inputParameter (v .NumericVector) "par" "parSEXP",
      .inputParameter (cr .mat) "X" "XSEXP",
      .inputParameter (cr .vec) "Y" "YSEXP",
      .inputParameter (cr .sp_mat) "Zt" "ZtSEXP",
      .inputParameter (cr .sp_mat) "St" "StSEXP",
      .inputParameter (cr .list) "nested" "nestedSEXP",
      .inputParameter (v .bool) "REML" "REMLSEXP",
      .assignWrapCall "pglmm_gaussian_LL_calc_cpp" ["par", "X", "Y", "Zt", "St", "nested", "REML"],
      .returnResult] }

/-- The forward declaration of `pglmm_gaussian_internal_cpp` (defined outside this file). -/
def pglmm_gaussian_internal_cpp : Decl :=
  { ret := .list, name := "pglmm_gaussian_internal_cpp",
    params := [
      ⟨v .NumericVector, "par"⟩,
      ⟨cr .mat, "X"⟩,
      ⟨cr .vec, "Y"⟩,
      ⟨cr .sp_mat, "Zt"⟩,
      ⟨cr .sp_mat, "St"⟩,
      ⟨cr .list, "nested"⟩,
      ⟨v .bool, "REML"⟩,
      ⟨v .bool, "verbose"⟩,
      ⟨v .string, "optimizer"⟩,
      ⟨v .int, "maxit"⟩,
      ⟨v .double, "reltol"⟩,
      ⟨v .int, "q"⟩,
      ⟨v .int, "n"⟩,
      ⟨v .int, "p"⟩,
      ⟨c .double, "Pi"⟩] }

/-- The exported wrapper `_phyr_pglmm_gaussian_internal_cpp`. -/
def _phyr_pglmm_gaussian_internal_cpp : Wrapper :=
  { name := "_phyr_pglmm_gaussian_internal_cpp",
    sexpParams := ["parSEXP", "XSEXP", "YSEXP", "ZtSEXP", "StSEXP", "nestedSEXP", "REMLSEXP", "verboseSEXP", "optimizerSEXP", "maxitSEXP", "reltolSEXP", "qSEXP", "nSEXP", "pSEXP", "PiSEXP"],
    decl := pglmm_gaussian_internal_cpp,
    body := [
      .declResult,
      .rngScope,
      .inputParameter (v .NumericVector) "par" "parSEXP",
      .inputParameter (cr .mat) "X" "XSEXP",
      .inputParameter (cr .vec) "Y" "YSEXP",
      .inputParameter (cr .sp_mat) "Zt" "ZtSEXP",
      .inputParameter (cr .sp_mat) "St" "StSEXP",
      .inputParameter (cr .list) "nested" "nestedSEXP",
      .inputParameter (v .bool) "REML" "REMLSEXP",
      .inputParameter (v .bool) "verbose" "verboseSEXP",
      .inputParameter (v .string) "optimizer" "optimizerSEXP",
      .inputParameter (v .int) "maxit" "maxitSEXP",
      .inputParameter (v .double) "reltol" "reltolSEXP",
      .inputParameter (v .int) "q" "qSEXP",
      .inputParameter (v .int) "n" "nSEXP",
      .inputParameter (v .int) "p" "pSEXP",
      .inputParameter (c .double) "Pi" "PiSEXP",
      .assignWrapCall "pglmm_gaussian_internal_cpp" ["par", "X", "Y", "Zt", "St", "nested", "REML", "verbose", "optimizer", "maxit", "reltol", "q", "n", "p", "Pi"],
      .returnResult] }

/-- The fifteen wrappers the file defines, in file order. -/
def wrappers : List Wrapper :=
  [_phyr_pglmm_reml_cpp,
   _phyr_binpglmm_inter_while_cpp,
   _phyr_binpglmm_inter_while_cpp2,
   _phyr_cor_phylo_,
   _phyr_set_seed,
   _phyr_predict_cpp,
   _phyr_pcd2_loop,
   _phyr_plmm_binary_iV_logdetV_cpp,
   _phyr_plmm_binary_V,
   _phyr_plmm_binary_LL_cpp,
   _phyr_pglmm_binary_internal_cpp,
   _phyr_sexp_type,
   _phyr_pglmm_gaussian_LL_cpp,
   _phyr_pglmm_gaussian_LL_calc_cpp,
   _phyr_pglmm_gaussian_internal_cpp]

/-- The table `static const R_CallMethodDef CallEntries[]`, row by row. -/
def CallEntries : List R_CallMethodDef :=
  [⟨some "_phyr_pglmm_reml_cpp", some _phyr_pglmm_reml_cpp, 5⟩,
   ⟨some "_phyr_binpglmm_inter_while_cpp", some _phyr_binpglmm_inter_while_cpp, 16⟩,
   ⟨some "_phyr_binpglmm_inter_while_cpp2", some _phyr_binpglmm_inter_while_cpp2, 12⟩,
   ⟨some "_phyr_cor_phylo_", some _phyr_cor_phylo_, 9⟩,
   ⟨some "_phyr_set_seed", some _phyr_set_seed, 1⟩,
   ⟨some "_phyr_predict_cpp", some _phyr_predict_cpp, 4⟩,
   ⟨some "_phyr_pcd2_loop", some _phyr_pcd2_loop, 7⟩,
   ⟨some "_phyr_plmm_binary_iV_logdetV_cpp", some _phyr_plmm_binary_iV_logdetV_cpp, 6⟩,
   ⟨some "_phyr_plmm_binary_V", some _phyr_plmm_binary_V, 6⟩,
   ⟨some "_phyr_plmm_binary_LL_cpp", some _phyr_plmm_binary_LL_cpp, 9⟩,
   ⟨some "_phyr_pglmm_binary_internal_cpp", some _phyr_pglmm_binary_internal_cpp, 17⟩,
   ⟨some "_phyr_sexp_type", some _phyr_sexp_type, 1⟩,
   ⟨some "_phyr_pglmm_gaussian_LL_cpp", some _phyr_pglmm_gaussian_LL_cpp, 8⟩,
   ⟨some "_phyr_pglmm_gaussian_LL_calc_cpp", some _phyr_pglmm_gaussian_LL_calc_cpp, 7⟩,
   ⟨some "_phyr_pglmm_gaussian_internal_cpp", some _phyr_pglmm_gaussian_internal_cpp, 15⟩,
   ⟨none, none, 0⟩]

/-- The function `R_init_phyr` passes `CallEntries` to `R_registerRoutines` as the
`.Call` table; R registers the rows up to the first one whose name is `NULL`.
The result is the list of registered symbol names. -/
def R_init_phyr : List String :=
  (CallEntries.takeWhile (fun e => e.name.isSome)).filterMap (fun e => e.name)

/-! ## Reading the declarations -/

/-- The names of the parameters a declaration accepts, in order. -/
def Decl.paramNames (d : Decl) : List String := d.params.map (fun p => p.name)

/-- The names under which the iteration caps are passed. -/
def iterationCapNames : List String := ["maxit", "maxit_pql", "max_iter"]

/-- Every iteration-cap parameter of every declared routine, with the routine
that accepts it. -/
def iterationCapParams : List (String × Param) :=
  wrappers.flatMap fun w =>
    (w.decl.params.filter (fun p => p.name ∈ iterationCapNames)).map
      (fun p => (w.decl.name, p))

/-! ## The entry points as the specification lists them -/

/-- One entry point of the specification's External Interfaces section: the
name it has there, the routine it stands for, and the parameters listed for
it, each as (name in the specification, name of that parameter in the code). -/
structure SpecEntry where
  specName : String
  routine : Decl
  params : List (String × String)

/-- The entry `fitGaussianREML(par, invW, H, Vphy, X)`. -/
def fitGaussianREML : SpecEntry :=
  { specName := "fitGaussianREML", routine := pglmm_reml_cpp,
    params := [("par", "par"), ("invW", "tinvW"), ("H", "tH"), ("Vphy", "tVphy"),
      ("X", "tX")] }

/-- The entry `fitBinaryPQL(X, Y, Zt, St, nested, REML, n, p, q, maxit, reltol,
tol_pql, maxit_pql, optimizerMethod, B_init, startingVarianceComponents)`. -/
def fitBinaryPQL : SpecEntry :=
  { specName := "fitBinaryPQL", routine := pglmm_binary_internal_cpp,
    params := [("X", "X"), ("Y", "Y"), ("Zt", "Zt"), ("St", "St"), ("nested", "nested"),
      ("REML", "REML"), ("n", "n"), ("p", "p"), ("q", "q"), ("maxit", "maxit"),
      ("reltol", "reltol"), ("tol_pql", "tol_pql"), ("maxit_pql", "maxit_pql"),
      ("optimizerMethod", "optimizer"), ("B_init", "B_init"),
      ("startingVarianceComponents", "ss")] }

/-- The entry `fitGaussianPGLMM(par, X, Y, Zt, St, nested, REML, optimizerMethod,
maxit, reltol, q, n, p)`. -/
def fitGaussianPGLMM : SpecEntry :=
  { specName := "fitGaussianPGLMM", routine := pglmm_gaussian_internal_cpp,
    params := [("par", "par"), ("X", "X"), ("Y", "Y"), ("Zt", "Zt"), ("St", "St"),
      ("nested", "nested"), ("REML", "REML"), ("optimizerMethod", "optimizer"),
      ("maxit", "maxit"), ("reltol", "reltol"), ("q", "q"), ("n", "n"), ("p", "p")] }

/-- The entry `corPhylo(X, U[], SeM, Vphy, REML, constrainD, maxIter, method)`. -/
def corPhylo : SpecEntry :=
  { specName := "corPhylo", routine := cor_phylo_,
    params := [("X", "X"), ("U[]", "U"), ("SeM", "SeM"), ("Vphy", "Vphy_"),
      ("REML", "REML"), ("constrainD", "constrain_d"), ("maxIter", "max_iter"),
      ("method", "method")] }

/-- The entry `pcd(SSii, nsr, SCii, community, Vphy, poolSize)`. -/
def pcd : SpecEntry :=
  { specName := "pcd", routine := pcd2_loop,
    params := [("SSii", "SSii"), ("nsr", "nsr"), ("SCii", "SCii"), ("community", "comm"),
      ("Vphy", "V"), ("poolSize", "nsp_pool")] }

/-- The entry `predict(n, noiseScale, reps, V)`. -/
def predict : SpecEntry :=
  { specName := "predict", routine := predict_cpp,
    params := [("n", "n"), ("noiseScale", "nsr"), ("reps", "reps"), ("V", "V")] }

/-- The entry `setSeed(seed)`. -/
def setSeed : SpecEntry :=
  { specName := "setSeed", routine := set_seed, params := [("seed", "seed")] }

/-- The seven entry points of the External Interfaces section, in its order. -/
def specInterfaces : List SpecEntry :=
  [fitGaussianREML, fitBinaryPQL, fitGaussianPGLMM, corPhylo, pcd, predict, setSeed]

/-- The parameters the specification lists for an entry, by their names in the
code. -/
def SpecEntry.listed (e : SpecEntry) : List String := e.params.map (fun p => p.2)

/-- The routine of an entry accepts exactly the listed parameters, in the listed
order, and no other. -/
def SpecEntry.AcceptsExactly (e : SpecEntry) : Prop := e.routine.paramNames = e.listed

instance (e : SpecEntry) : Decidable e.AcceptsExactly := by
  unfold SpecEntry.AcceptsExactly; infer_instance

/-- The parameters a routine accepts that the specification does not list for
its entry. -/
def SpecEntry.unlisted (e : SpecEntry) : List String :=
  e.routine.paramNames.filter (fun p => p ∉ e.listed)

/-- The exported symbol of an entry: the routine name behind the package prefix. -/
def SpecEntry.symbol (e : SpecEntry) : String := "_phyr_" ++ e.routine.name

/-- The exported symbols of the seven listed entry points. -/
def specSymbols : List String := specInterfaces.map SpecEntry.symbol

/-! ## What a wrapper does

`Rcpp::RNGScope` calls `GetRNGstate()` when the object is constructed and
`PutRNGstate()` when it is destroyed, that is, when the wrapper returns:
the first reads R's process-wide random-number state into the generator, the
second writes the generator's state back. -/

/-- The operations of a wrapper that are listed by `Stmt.trace`. -/
inductive Event
  | GetRNGstate
  | PutRNGstate
  | convert (ty : CppType) (sexp : String)
  | call (fn : String) (args : List String)
  | wrapResult
  deriving DecidableEq, Repr

/-- The RNG-scope operations, conversions, calls and wraps of a statement list, in
order, on the path where no conversion and no call fails; `scope` tells whether
an `RNGScope` object is alive, to be destroyed at the `return`.  Constructing
and destroying `rcpp_result_gen` is not listed: it has no event. -/
def Stmt.trace : List Stmt → Bool → List Event
  | [], scope => if scope then [.PutRNGstate] else []
  | .declResult :: rest, scope => Stmt.trace rest scope
  | .rngScope :: rest, _ => .GetRNGstate :: Stmt.trace rest true
  | .inputParameter ty _ sexp :: rest, scope => .convert ty sexp :: Stmt.trace rest scope
  | .assignWrapCall fn args :: rest, scope =>
      .call fn args :: .wrapResult :: Stmt.trace rest scope
  | .callVoid fn args :: rest, scope => .call fn args :: Stmt.trace rest scope
  | .returnResult :: _, scope => if scope then [.PutRNGstate] else []
  | .returnNil :: _, scope => if scope then [.PutRNGstate] else []

/-- The listed operations of one successful call of a wrapper. -/
def Wrapper.trace (w : Wrapper) : List Event := Stmt.trace w.body false

/-- What the file uses without defining it, over a process state `σ` and host
values `V`: the two halves of `RNGScope`, the argument conversion behind
`input_parameter< T >`, `Rcpp::wrap` (by the declared return type),
`R_NilValue`, and the implementation functions by name.  Conversions and
implementations may fail (`none`: a C++ exception, which `END_RCPP` turns into
an R error). -/
structure Host (σ V : Type) where
  GetRNGstate : σ → σ
  PutRNGstate : σ → σ
  as : CppType → V → Option V
  wrap : V → V
  R_NilValue : V
  impl : String → List V → σ → Option (V × σ)

/-- The local state of a running wrapper: the `SEXP` arguments, the converted
parameters, `rcpp_result_gen`, whether an `RNGScope` is alive, and the process
state. -/
structure Frame (σ V : Type) where
  sexps : List (String × V)
  vars : List (String × V)
  result : V
  scope : Bool
  state : σ

/-- Leaving the wrapper: the `RNGScope`, if alive, is destroyed. -/
def Frame.leave {σ V : Type} (h : Host σ V) (f : Frame σ V) : σ :=
  if f.scope then h.PutRNGstate f.state else f.state

/-- Runs a statement list.  The result is the returned value and the process
state left behind, or `none` for an R error (also when a body ends without
`return`, which no wrapper of the file does). -/
def Stmt.exec {σ V : Type} (h : Host σ V) : List Stmt → Frame σ V → Option (V × σ)
  | [], _ => none
  | .declResult :: rest, f => Stmt.exec h rest { f with result := h.R_NilValue }
  | .rngScope :: rest, f =>
      Stmt.exec h rest { f with scope := true, state := h.GetRNGstate f.state }
  | .inputParameter ty var sexp :: rest, f =>
      match (f.sexps.lookup sexp).bind (h.as ty) with
      | none => none
      | some x => Stmt.exec h rest { f with vars := (var, x) :: f.vars }
  | .assignWrapCall fn args :: rest, f =>
      match (args.mapM fun a => f.vars.lookup a).bind (fun xs => h.impl fn xs f.state) with
      | none => none
      | some (r, s) => Stmt.exec h rest { f with result := h.wrap r, state := s }
  | .callVoid fn args :: rest, f =>
      match (args.mapM fun a => f.vars.lookup a).bind (fun xs => h.impl fn xs f.state) with
      | none => none
      | some (_, s) => Stmt.exec h rest { f with state := s }
  | .returnResult :: _, f => some (f.result, f.leave h)
  | .returnNil :: _, f => some (h.R_NilValue, f.leave h)

/-- Calls a wrapper with the given host arguments, one per `SEXP` parameter. -/
def Wrapper.run {σ V : Type} (h : Host σ V) (w : Wrapper) (args : List V) (s : σ) :
    Option (V × σ) :=
  if args.length = w.sexpParams.length then
    Stmt.exec h w.body
      { sexps := w.sexpParams.zip args, vars := [], result := h.R_NilValue,
        scope := false, state := s }
  else none

/-! ## Seeding and simulation -/

/-- Modelled from the spec: the bodies of `set_seed` and `predict_cpp`, which the
file declares and calls but does not contain.  The process state is the
process-wide random stream.  `set_seed(seed)` "reseeds the process-wide random
stream": the stream becomes `reseed seed`, whatever it was.  `predict_cpp(n,
nsr, reps, V)` is a "seed-dependent function (no hidden global configuration
beyond the random stream)": `draw` gives its replicates and the stream it
leaves from the four arguments and the current stream, or fails (a `V` that is
not positive semi-definite is "fatal for that call").  Every other
implementation function is `other`. -/
def specImpl {σ V : Type} (nil : V) (reseed : V → σ)
    (draw : V → V → V → V → σ → Option (V × σ))
    (other : String → List V → σ → Option (V × σ)) :
    String → List V → σ → Option (V × σ) :=
  fun fn xs s =>
    if fn = "set_seed" then
      match xs with
      | [seed] => some (nil, reseed seed)
      | _ => none
    else if fn = "predict_cpp" then
      match xs with
      | [n, nsr, reps, Vm] => draw n nsr reps Vm s
      | _ => none
    else other fn xs s

/-- A host whose implementation functions are `specImpl`; the rest is as given. -/
def specHost {σ V : Type} (get put : σ → σ) (as : CppType → V → Option V) (wrap : V → V)
    (nil : V) (reseed : V → σ) (draw : V → V → V → V → σ → Option (V × σ))
    (other : String → List V → σ → Option (V × σ)) : Host σ V :=
  { GetRNGstate := get, PutRNGstate := put, as := as, wrap := wrap, R_NilValue := nil,
    impl := specImpl nil reseed draw other }

/-- One seeded simulation run: `_phyr_set_seed(seed)`, then `_phyr_predict_cpp(n,
nsr, reps, V)`; the output is what the second call returns. -/
def seededPredict {σ V : Type} (h : Host σ V) (seed n nsr reps Vm : V) (s : σ) : Option V :=
  (_phyr_set_seed.run h [seed] s).bind fun r =>
    (_phyr_predict_cpp.run h [n, nsr, reps, Vm] r.2).map fun out => out.1

/-- A small concrete host over natural numbers: the stream is a counter, seeding
sets it to the seed, and a draw returns the sum of its arguments and the
counter and advances the counter. -/
def counterHost : Host Nat Nat :=
  specHost (fun s => s) (fun s => s) (fun _ x => some x) (fun x => x) 0 (fun seed => seed)
    (fun n nsr reps Vm s => some (n + nsr + reps + Vm + s, s + 1)) (fun _ _ _ => none)

/-! ## Forwarding -/

/-- Whether an operation is a call of an implementation function. -/
def Event.isCall : Event → Bool
  | .call _ _ => true
  | _ => false

/-- The calls of implementation functions a wrapper makes, in order. -/
def Wrapper.calls (w : Wrapper) : List Event := w.trace.filter Event.isCall

/-- The converted arguments of a call: the i-th host argument, converted to the
declared type of the i-th parameter, for every i; `none` when a conversion
fails or an argument is missing. -/
def convertArgs {σ V : Type} (h : Host σ V) : List Param → List V → Option (List V)
  | [], _ => some []
  | _ :: _, [] => none
  | p :: ps, a :: as =>
      (h.as p.ty a).bind fun x => (convertArgs h ps as).map fun xs => x :: xs

/-- Faithful forwarding to a declared function, stated without reference to any
wrapper body: the declared function is called once, inside the RNG scope, on
the converted arguments in their order; what comes back is that call's result
as `Rcpp::wrap` hands it to the host, or `R_NilValue` for a `void` function,
and the process state the call left, passed through the end of the scope.  A
failed conversion or a failed call is an R error. -/
def forward {σ V : Type} (h : Host σ V) (d : Decl) (args : List V) (s : σ) : Option (V × σ) :=
  (convertArgs h d.params args).bind fun xs =>
    (h.impl d.name xs (h.GetRNGstate s)).map fun r =>
      (if d.ret = .void then h.R_NilValue else h.wrap r.1, h.PutRNGstate r.2)

/-- The statements converting the host arguments, one per declared parameter. -/
def inputStmts : List Param → List String → List Stmt
  | p :: ps, sx :: sxs => .inputParameter p.ty p.name sx :: inputStmts ps sxs
  | _, _ => []

/-- The common shape of the wrapper bodies, as a function of the declaration and
the `SEXP` parameter names: the result variable (unless the function is
`void`), the RNG scope, one conversion per parameter, the call on all
parameters in order, and the return. -/
def canonicalBody (d : Decl) (sexps : List String) : List Stmt :=
  if d.ret = .void then
    .rngScope :: (inputStmts d.params sexps ++ [.callVoid d.name d.paramNames, .returnNil])
  else
    .declResult :: .rngScope ::
      (inputStmts d.params sexps ++ [.assignWrapCall d.name d.paramNames, .returnResult])

/-- A concrete host over natural numbers in which order and conversion show:
converting adds one, every implementation function reads its arguments as the
decimal digits of its result and advances the state by one, wrapping doubles,
the RNG scope adds 100 on entry and 1000 on exit. -/
def digitHost : Host Nat Nat :=
  { GetRNGstate := fun s => s + 100, PutRNGstate := fun s => s + 1000,
    as := fun _ x => some (x + 1), wrap := fun x => 2 * x, R_NilValue := 0,
    impl := fun _ xs s => some (xs.foldl (fun acc x => 10 * acc + x) 0, s + 1) }

/-! ## Confinement of randomness -/

/-- C1 (as stated, refuted): `fitBinaryPQL` is listed with 16 parameters while
`pglmm_binary_internal_cpp` accepts 17, among them `verbose`, which the list
lacks; so not every listed entry point accepts exactly its listed parameters. -/
theorem fitBinaryPQL_not_acceptsExactly :
    fitBinaryPQL.routine.paramNames.length = 17 ∧ fitBinaryPQL.listed.length = 16 ∧
    "verbose" ∈ fitBinaryPQL.routine.paramNames ∧ "verbose" ∉ fitBinaryPQL.listed ∧
    ¬ ∀ e ∈ specInterfaces, e.AcceptsExactly := by
  decide

/-- C1 (amended): every listed entry point is exported by a wrapper of the file
and accepts its listed parameters in the listed order; `fitGaussianREML`,
`predict` and `setSeed` accept nothing else, `fitBinaryPQL`, `corPhylo` and
`pcd` accept `verbose` besides, and `fitGaussianPGLMM` accepts `verbose` and
`Pi` besides. -/
theorem specInterfaces_listed_modulo_unlisted :
    (∀ e ∈ specInterfaces,
      (∃ w ∈ wrappers, w.decl = e.routine ∧ w.name = e.symbol) ∧
      e.routine.paramNames.filter (fun p => p ∈ e.listed) = e.listed) ∧
    specInterfaces.map (fun e => (e.specName, e.unlisted)) =
      [("fitGaussianREML", []), ("fitBinaryPQL", ["verbose"]),
       ("fitGaussianPGLMM", ["verbose", "Pi"]), ("corPhylo", ["verbose"]),
       ("pcd", ["verbose"]), ("predict", []), ("setSeed", [])] := by
  decide

/-- C2 (as stated, refuted): `_phyr_sexp_type` is registered with the host and is
none of the seven listed entry points. -/
theorem sexp_type_registered_not_listed :
    "_phyr_sexp_type" ∈ R_init_phyr ∧ "_phyr_sexp_type" ∉ specSymbols := by
  decide

/-- C2 (amended): each of the seven listed entry points is registered, and the
library registers fifteen routines in all, the other eight being the two PQL
engines, the covariance and likelihood helpers and `sexp_type`. -/
theorem specSymbols_registered_among_fifteen :
    (∀ n ∈ specSymbols, n ∈ R_init_phyr) ∧ specSymbols.length = 7 ∧
    R_init_phyr.length = 15 ∧
    R_init_phyr.filter (fun n => n ∉ specSymbols) =
      ["_phyr_binpglmm_inter_while_cpp", "_phyr_binpglmm_inter_while_cpp2",
       "_phyr_plmm_binary_iV_logdetV_cpp", "_phyr_plmm_binary_V",
       "_phyr_plmm_binary_LL_cpp", "_phyr_sexp_type", "_phyr_pglmm_gaussian_LL_cpp",
       "_phyr_pglmm_gaussian_LL_calc_cpp"] := by
  decide

/-- C3 (the code at the failing input): of the five iteration-cap parameters the
routines accept, exactly one is not an `int`: `maxit_pql` of
`pglmm_binary_internal_cpp` is declared `const double`, while the same cap is
`const int&` in `binpglmm_inter_while_cpp`; the wrapper converts the argument
to a `const double` accordingly. -/
theorem maxit_pql_declared_double :
    iterationCapParams.length = 5 ∧
    iterationCapParams.filter (fun x => x.2.ty.base ≠ .int) =
      [("pglmm_binary_internal_cpp", ⟨c .double, "maxit_pql"⟩)] ∧
    ("binpglmm_inter_while_cpp", ⟨cr .int, "maxit_pql"⟩) ∈ iterationCapParams ∧
    Stmt.inputParameter (c .double) "maxit_pql" "maxit_pqlSEXP" ∈
      _phyr_pglmm_binary_internal_cpp.body := by
  decide

/-- C4 (as stated, refuted): removing `oldest_B_m` from the inputs of
`binpglmm_inter_while_cpp` leaves 15 inputs, not the 12 of
`binpglmm_inter_while_cpp2`. -/
theorem cpp2_not_cpp_minus_oldest :
    (binpglmm_inter_while_cpp.params.filter (fun p => p.name ≠ "oldest_B_m")).length = 15 ∧
    binpglmm_inter_while_cpp2.params.length = 12 ∧
    binpglmm_inter_while_cpp2.params ≠
      binpglmm_inter_while_cpp.params.filter (fun p => p.name ≠ "oldest_B_m") := by
  decide

/-- C4 (amended): the inputs of `binpglmm_inter_while_cpp2` are exactly the inputs
of `binpglmm_inter_while_cpp` with `oldest_B_m`, `tol_pql`, `iteration_m` and
`maxit_pql` removed, in the same order and with the same types, and both
return a `List`. -/
theorem cpp2_params_eq_cpp_minus_loop_state :
    binpglmm_inter_while_cpp2.params =
      binpglmm_inter_while_cpp.params.filter
        (fun p => p.name ∉ ["oldest_B_m", "tol_pql", "iteration_m", "maxit_pql"]) ∧
    binpglmm_inter_while_cpp.ret = .list ∧ binpglmm_inter_while_cpp2.ret = .list := by
  decide

/-- C5: both log-likelihood functions return a single `double`; the Gaussian one
takes `par` and no `mu`, the binary one takes `par` and `mu`. -/
theorem LL_cpp_scalar_of_par_and_mu :
    pglmm_gaussian_LL_cpp.ret = .double ∧ plmm_binary_LL_cpp.ret = .double ∧
    "par" ∈ pglmm_gaussian_LL_cpp.paramNames ∧ "mu" ∉ pglmm_gaussian_LL_cpp.paramNames ∧
    "par" ∈ plmm_binary_LL_cpp.paramNames ∧ "mu" ∈ plmm_binary_LL_cpp.paramNames := by
  decide

/-- C9: a seeded simulation run does not depend on the random stream it starts
from: for every seed and every `(n, nsr, reps, V)`, two runs that call
`_phyr_set_seed(seed)` and then `_phyr_predict_cpp(n, nsr, reps, V)` return the
same output (or both fail), whatever `RNGScope`, the conversions and the
generator are. -/
theorem seededPredict_deterministic {σ V : Type} (get put : σ → σ)
    (as : CppType → V → Option V) (wrap : V → V) (nil : V) (reseed : V → σ)
    (draw : V → V → V → V → σ → Option (V × σ))
    (other : String → List V → σ → Option (V × σ))
    (seed n nsr reps Vm : V) (s₁ s₂ : σ) :
    seededPredict (specHost get put as wrap nil reseed draw other) seed n nsr reps Vm s₁ =
      seededPredict (specHost get put as wrap nil reseed draw other) seed n nsr reps Vm s₂ := by
  have hseed : ∀ s : σ,
      _phyr_set_seed.run (specHost get put as wrap nil reseed draw other) [seed] s =
        (as (v .unsignedInt) seed).map fun x => (nil, put (reseed x)) := by
    intro s
    cases hc : as (v .unsignedInt) seed <;>
      simp [Wrapper.run, _phyr_set_seed, Stmt.exec, specHost, specImpl, Frame.leave,
        List.lookup, List.mapM.loop, hc]
  simp only [seededPredict, hseed]

/-- C9, on the counter host: seeded with 7, the run returns 17 whether the stream
started at 0 or at 99. -/
theorem seededPredict_deterministic_witness :
    seededPredict counterHost 7 1 2 3 4 0 = some 17 ∧
    seededPredict counterHost 7 1 2 3 4 0 = seededPredict counterHost 7 1 2 3 4 99 :=
  ⟨by decide,
   seededPredict_deterministic (fun s => s) (fun s => s) (fun _ x => some x) (fun x => x) 0
     (fun seed => seed) (fun n nsr reps Vm s => some (n + nsr + reps + Vm + s, s + 1))
     (fun _ _ _ => none) 7 1 2 3 4 0 99⟩

/-- C10: every row of `CallEntries` before the last names a wrapper defined in the
file, points to it and declares as many arguments as that wrapper has
parameters; every wrapper of the file has exactly one row; and the last row is
the null sentinel. -/
theorem CallEntries_consistent :
    (∀ e ∈ CallEntries.dropLast,
      ∃ w ∈ wrappers, e.name = some w.name ∧ e.fn = some w ∧
        e.numArgs = w.sexpParams.length) ∧
    (∀ w ∈ wrappers, CallEntries.countP (fun e => e.name = some w.name) = 1) ∧
    CallEntries.getLast? = some ⟨none, none, 0⟩ := by
  decide

/-! ### Forwarding lemmas -/

/-- Every wrapper body of the file has the common shape, with distinct names. -/
theorem wrappers_canonical :
    ∀ w ∈ wrappers,
      w.body = canonicalBody w.decl w.sexpParams ∧ w.sexpParams.Nodup ∧
      w.decl.paramNames.Nodup ∧ w.decl.params.length = w.sexpParams.length := by
  decide

/-- Looking up distinct keys in the list pairing them with values finds each
key's own value, also behind a prefix that binds none of them. -/
theorem lookup_zip_bound {V : Type} :
    ∀ (keys : List String) (vals : List V) (pre : List (String × V)),
      keys.Nodup → keys.length = vals.length → (∀ k ∈ keys, pre.lookup k = none) →
      List.Forall₂ (fun k x => (pre ++ keys.zip vals).lookup k = some x) keys vals
  | [], [], _, _, _, _ => List.Forall₂.nil
  | [], _ :: _, _, _, hl, _ => by simp at hl
  | _ :: _, [], _, _, hl, _ => by simp at hl
  | k :: ks, x :: xs, pre, hnd, hl, hpre => by
    have hk : k ∉ ks := (List.nodup_cons.mp hnd).1
    refine List.Forall₂.cons ?_ ?_
    · simp [List.lookup_append, hpre k (List.mem_cons_self k ks)]
    · have ih := lookup_zip_bound ks xs (pre ++ [(k, x)]) (List.nodup_cons.mp hnd).2
        (by simpa using hl) (by
          intro k1 hk1
          have hne : (k1 == k) = false := by
            simpa using fun e : k1 = k => hk (e ▸ hk1)
          simp [List.lookup_append, hpre k1 (List.mem_cons_of_mem k hk1), List.lookup_cons, hne])
      simpa [List.append_assoc] using ih

/-- Looking up distinct names in the reversed pairing, as the conversions leave
it, finds each name's own value. -/
theorem lookup_reverse_zip_bound {V : Type} :
    ∀ (keys : List String) (vals : List V) (rest : List (String × V)),
      keys.Nodup → keys.length = vals.length →
      List.Forall₂ (fun k x => ((keys.zip vals).reverse ++ rest).lookup k = some x) keys vals
  | [], [], _, _, _ => List.Forall₂.nil
  | [], _ :: _, _, _, hl => by simp at hl
  | _ :: _, [], _, _, hl => by simp at hl
  | k :: ks, x :: xs, rest, hnd, hl => by
    have hk : k ∉ ks := (List.nodup_cons.mp hnd).1
    refine List.Forall₂.cons ?_ ?_
    · have hnone : ((ks.zip xs).reverse).lookup k = none := by
        rw [List.lookup_eq_none_iff]
        intro p hp
        have hp1 : p.1 ∈ ks := (List.of_mem_zip (List.mem_reverse.mp hp)).1
        simpa using fun e : k = p.1 => hk (e ▸ hp1)
      simp [List.lookup_append, hnone]
    · have ih := lookup_reverse_zip_bound ks xs ((k, x) :: rest) (List.nodup_cons.mp hnd).2
        (by simpa using hl)
      simpa [List.append_assoc] using ih

/-- Reading a list of bound names yields the list of their values. -/
theorem mapM_lookup_of_bound {V : Type} (env : List (String × V)) :
    ∀ (keys : List String) (vals : List V),
      List.Forall₂ (fun k x => env.lookup k = some x) keys vals →
      keys.mapM (fun a => env.lookup a) = some vals
  | _, _, List.Forall₂.nil => rfl
  | k :: ks, x :: xs, List.Forall₂.cons hkx hrest => by
    have hk : env.lookup k = some x := hkx
    rw [List.mapM_cons, hk, mapM_lookup_of_bound env ks xs hrest]
    rfl

/-- Conversion yields one value per declared parameter. -/
theorem convertArgs_length {σ V : Type} (h : Host σ V) :
    ∀ (ps : List Param) (args xs : List V), convertArgs h ps args = some xs →
      xs.length = ps.length
  | [], _, xs, e => by simp [convertArgs] at e; simp [← e]
  | _ :: _, [], _, e => by simp [convertArgs] at e
  | p :: ps, a :: as, xs, e => by
    simp only [convertArgs] at e
    cases hx : h.as p.ty a with
    | none => simp [hx] at e
    | some x =>
      cases hxs : convertArgs h ps as with
      | none => simp [hx, hxs] at e
      | some ys =>
        simp [hx, hxs] at e
        simp [← e, convertArgs_length h ps as ys hxs]

/-- Running the conversion statements binds the declared names to the converted
arguments, or fails where a conversion fails. -/
theorem exec_inputStmts {σ V : Type} (h : Host σ V) (rest : List Stmt) :
    ∀ (ps : List Param) (sxs : List String) (args : List V) (f : Frame σ V),
      ps.length = sxs.length →
      List.Forall₂ (fun sx a => f.sexps.lookup sx = some a) sxs args →
      Stmt.exec h (inputStmts ps sxs ++ rest) f =
        match convertArgs h ps args with
        | none => none
        | some xs =>
            Stmt.exec h rest
              { f with vars := ((ps.map fun p => p.name).zip xs).reverse ++ f.vars }
  | [], [], _, f, _, _ => by simp [inputStmts, convertArgs]
  | [], _ :: _, _, _, hl, _ => by simp at hl
  | _ :: _, [], _, _, hl, _ => by simp at hl
  | p :: ps, sx :: sxs, a :: as, f, hl, List.Forall₂.cons hsx hrest => by
    have ha : f.sexps.lookup sx = some a := hsx
    simp only [inputStmts, List.cons_append, Stmt.exec, ha, Option.some_bind, convertArgs,
      List.append_eq]
    cases hx : h.as p.ty a with
    | none => simp
    | some x =>
      have ih := exec_inputStmts h rest ps sxs as { f with vars := (p.name, x) :: f.vars }
        (by simpa using hl) hrest
      simp only [Option.some_bind]
      rw [ih]
      cases hxs : convertArgs h ps as with
      | none => simp
      | some ys => simp [List.append_assoc]

/-- A body of the common shape, run on one host argument per parameter, forwards
faithfully. -/
theorem exec_canonicalBody {σ V : Type} (h : Host σ V) (d : Decl) (sxs : List String)
    (args : List V) (s : σ) (hs : sxs.Nodup) (hn : d.paramNames.Nodup)
    (hl : d.params.length = sxs.length) (ha : args.length = sxs.length) :
    Stmt.exec h (canonicalBody d sxs)
        { sexps := sxs.zip args, vars := [], result := h.R_NilValue, scope := false,
          state := s } =
      forward h d args s := by
  have hb : List.Forall₂ (fun sx a => (sxs.zip args).lookup sx = some a) sxs args := by
    simpa using lookup_zip_bound sxs args [] hs ha.symm (by simp)
  unfold canonicalBody forward
  split
  · next hv =>
    simp only [Stmt.exec]
    rw [exec_inputStmts h _ d.params sxs args _ hl hb]
    cases hc : convertArgs h d.params args with
    | none => simp
    | some xs =>
      have hm := mapM_lookup_of_bound _ _ _
        (lookup_reverse_zip_bound d.paramNames xs [] hn
          (by simp [Decl.paramNames, convertArgs_length h _ _ _ hc]))
      simp only [Decl.paramNames] at hm
      simp only [Stmt.exec, Decl.paramNames, hm, Option.some_bind, hv, if_true]
      cases h.impl d.name xs (h.GetRNGstate s) with
      | none => simp
      | some r => simp [Frame.leave]
  · next hv =>
    simp only [Stmt.exec]
    rw [exec_inputStmts h _ d.params sxs args _ hl hb]
    cases hc : convertArgs h d.params args with
    | none => simp
    | some xs =>
      have hm := mapM_lookup_of_bound _ _ _
        (lookup_reverse_zip_bound d.paramNames xs [] hn
          (by simp [Decl.paramNames, convertArgs_length h _ _ _ hc]))
      simp only [Decl.paramNames] at hm
      simp only [Stmt.exec, Decl.paramNames, hm, Option.some_bind, hv, if_false]
      cases h.impl d.name xs (h.GetRNGstate s) with
      | none => simp
      | some r => simp [Frame.leave]

/-- Every wrapper carries the name of the function it declares behind the package
prefix and makes one call, of that function, on the declared parameters in
their order. -/
theorem wrappers_call_once :
    ∀ w ∈ wrappers,
      w.name = "_phyr_" ++ w.decl.name ∧ w.calls = [.call w.decl.name w.decl.paramNames] := by
  decide

/-- C11: every exported wrapper is named after the function it declares, calls
that function exactly once on its parameters in order, and, run on one host
argument per parameter, does what faithful forwarding does: the i-th argument
of the call is the converted i-th host argument, and the value returned is the
call's result as `Rcpp::wrap` delivers it (`R_NilValue` for `set_seed`). -/
theorem wrappers_forward_faithfully :
    ∀ w ∈ wrappers,
      w.name = "_phyr_" ++ w.decl.name ∧
      w.calls = [.call w.decl.name w.decl.paramNames] ∧
      ∀ {σ V : Type} (h : Host σ V) (args : List V) (s : σ),
        args.length = w.sexpParams.length → w.run h args s = forward h w.decl args s := by
  intro w hw
  obtain ⟨hbody, hs, hn, hl⟩ := wrappers_canonical w hw
  refine ⟨(wrappers_call_once w hw).1, (wrappers_call_once w hw).2, ?_⟩
  intro σ V h args s ha
  unfold Wrapper.run
  rw [if_pos ha, hbody]
  exact exec_canonicalBody h w.decl w.sexpParams args s hs hn hl ha

/-- C11, on the digit host: `_phyr_predict_cpp` on 1, 2, 3, 4 calls `predict_cpp` on
2, 3, 4, 5 in that order and returns the wrapped 2345; `_phyr_set_seed` returns
the null value. -/
theorem wrappers_forward_faithfully_witness :
    _phyr_predict_cpp ∈ wrappers ∧
    [1, 2, 3, 4].length = _phyr_predict_cpp.sexpParams.length ∧
    _phyr_predict_cpp.run digitHost [1, 2, 3, 4] 7 =
      forward digitHost _phyr_predict_cpp.decl [1, 2, 3, 4] 7 ∧
    _phyr_predict_cpp.run digitHost [1, 2, 3, 4] 7 = some (4690, 1108) ∧
    _phyr_set_seed.run digitHost [1] 7 = some (0, 1108) :=
  ⟨by decide, by decide,
   (wrappers_forward_faithfully _phyr_predict_cpp (by decide)).2.2 digitHost [1, 2, 3, 4] 7
     (by decide),
   by decide, by decide⟩

/-! ### Confinement -/

end Phyr
